import Mathlib

/-!
Logging utility `src/src/log.c`.

A shallow embedding of `do_log`, `open_log_file`, `do_log_to_file` and
`v_do_log_to_file`.

* The C functions call into the C library and the operating system
  (`expand_env`, `fopen`, `gettimeofday`, `strftime`, `os_get_pid`, `fprintf`,
  `vfprintf`, `fputc`, `fflush`, `fclose`).  What each of those calls answers is
  not determined by `log.c`; it is supplied by an environment value (`Env`,
  `RecordEnv`), and every theorem quantifies over it.
* The effects of the calls are recorded, in program order, in a trace
  (`World.trace`).  Every trace entry also records the value which the static
  flag `opening_log_file` had when the call was made.
* `fmt` together with its variadic arguments is represented by the text that
  `vfprintf` expands them to (`msg`).
* A `fprintf` or `vfprintf` that fails may have handed some leading bytes of its text
  to the stream (`WriteResult.fail`); a `fputc` that fails hands over nothing.
* `assert` is taken to be active (no `NDEBUG`): a failed assertion ends the call
  with `Outcome.abort`.
* `int` and `int64_t` values are only compared and printed, never computed with;
  they are integers without a bound.
-/

namespace Log

/-! ## Constants -/

/-- The macro `USR_LOG_FILE` of `log.c` line 15. -/
def USR_LOG_FILE : String := "$HOME/.nvimlog"

/-- Modelled from the spec: `DEBUG_LOG_LEVEL` is declared in `log.h`, which is not
part of the sources; the spec describes an enumerated severity ordered
Debug < Info < Warning < Error, so the four constants are 0, 1, 2, 3. -/
def DEBUG_LOG_LEVEL : Int := 0

/-- Modelled from the spec: `INFO_LOG_LEVEL` of `log.h` (see `DEBUG_LOG_LEVEL`). -/
def INFO_LOG_LEVEL : Int := 1

/-- Modelled from the spec: `WARNING_LOG_LEVEL` of `log.h` (see `DEBUG_LOG_LEVEL`). -/
def WARNING_LOG_LEVEL : Int := 2

/-- Modelled from the spec: `ERROR_LOG_LEVEL` of `log.h` (see `DEBUG_LOG_LEVEL`). -/
def ERROR_LOG_LEVEL : Int := 3

/-- The designated initialisers of the table `log_levels` in `v_do_log_to_file`
(lines 111-116): index and string. -/
def log_levels : List (Int × String) :=
  [ (DEBUG_LOG_LEVEL, "debug"),
    (INFO_LOG_LEVEL, "info"),
    (WARNING_LOG_LEVEL, "warning"),
    (ERROR_LOG_LEVEL, "error") ]

/-- The array access `log_levels[log_level]`.  It is only evaluated after the
assertion of line 117, hence only at an initialised index; the default is never
used. -/
def log_levels_at (log_level : Int) : String :=
  (log_levels.lookup log_level).getD ""

/-! ## Streams, calls, trace -/

/-- A `FILE *` value that is not `NULL`: one of the two process-wide streams, or
the handle which `fopen` returned for a path. -/
inductive Stream where
  | stderr
  | stdout
  | file (path : String)
  deriving DecidableEq, Repr

/-- The calls with an effect outside the program that `log.c` makes. -/
inductive Call where
  /-- The call `expand_env(src, dst, MAXPATHL)`. -/
  | expand_env (src : String)
  /-- The call `fopen(path, mode)`. -/
  | fopen (path : String) (mode : String)
  /-- The bytes which a call of `fprintf`, `vfprintf` or `fputc` handed to the stream. -/
  | write (f : Stream) (bytes : String)
  /-- The call `fflush(f)`. -/
  | fflush (f : Stream)
  /-- The call `fclose(f)`. -/
  | fclose (f : Stream)
  deriving DecidableEq, Repr

/-- One entry of the trace: a call, and the value of `opening_log_file` at the
moment of the call. -/
structure Entry where
  guard : Bool
  call : Call
  deriving DecidableEq, Repr

/-- The state a call of `do_log` runs in: the static flag of `open_log_file`
(line 53) and the calls made so far, oldest first. -/
structure World where
  opening_log_file : Bool
  trace : List Entry
  deriving DecidableEq, Repr

/-- Record a call in the trace. -/
def emit (w : World) (c : Call) : World :=
  { w with trace := w.trace ++ [⟨w.opening_log_file, c⟩] }

/-- How a function call ends: it returns a value, or an assertion fails and the
process is aborted. -/
inductive Outcome (α : Type) where
  | ret (v : α)
  | abort
  deriving DecidableEq, Repr

/-! ## Environment -/

/-- What `fprintf` / `vfprintf` answers: success (a non-negative result, all bytes
handed to the stream), or a negative result after `written` bytes of the text
went out. -/
inductive WriteResult where
  | ok
  | fail (written : Nat)
  deriving DecidableEq, Repr

/-- The answers of the library to the calls made by one run of
`v_do_log_to_file`. -/
structure RecordEnv where
  /-- `gettimeofday(&tv, NULL) >= 0`. -/
  gettimeofday_ok : Bool
  /-- The text `strftime` stores in `date_time`; `none` when it returns 0. -/
  date_time : Option String
  /-- The result of `os_get_pid()`. -/
  pid : Int
  /-- The call of `fprintf` at line 142. -/
  fprintf : WriteResult
  /-- The call of `vfprintf` at line 146. -/
  vfprintf : WriteResult
  /-- The call `fputc(10, log_file)` at line 149 stored its byte. -/
  fputc_ok : Bool
  /-- `fflush(log_file) != EOF`. -/
  fflush_ok : Bool
  deriving DecidableEq, Repr

/-- The answers of the library and the operating system to the calls made by one
run of `do_log`. -/
structure Env where
  /-- What `expand_env` leaves in `expanded_log_file_path`. -/
  expanded_log_file_path : String
  /-- `fopen(expanded_log_file_path, "a") != NULL`. -/
  fopen_ok : Bool
  /-- The answers met by the record that `open_log_file` itself writes. -/
  diag : RecordEnv
  /-- The answers met by the record of the caller of `do_log`. -/
  caller : RecordEnv
  deriving DecidableEq, Repr

/-! ## The functions of `log.c` -/

/-- The function `v_do_log_to_file` (lines 107-155). -/
def v_do_log_to_file (e : RecordEnv) (log_file : Stream) (log_level : Int)
    (func_name : String) (line_num : Int) (msg : String) (w : World) :
    Outcome Bool × World :=
  -- assert(log_level >= DEBUG_LOG_LEVEL && log_level <= ERROR_LOG_LEVEL);
  if ¬ (log_level ≥ DEBUG_LOG_LEVEL ∧ log_level ≤ ERROR_LOG_LEVEL) then (.abort, w)
  -- if (gettimeofday(&tv, NULL) < 0) return false;
  else if e.gettimeofday_ok = false then (.ret false, w)
  else
    -- if (strftime(date_time, ...) == 0) return false;
    match e.date_time with
    | none => (.ret false, w)
    | some date_time =>
      let pid := e.pid
      -- "%s [%s @ %s:%d] %" PRId64 " - "
      let head := date_time ++ " [" ++ log_levels_at log_level ++ " @ " ++ func_name
        ++ ":" ++ toString line_num ++ "] " ++ toString pid ++ " - "
      -- if (fprintf(log_file, ...) < 0) return false;
      match e.fprintf with
      | .fail n => (.ret false, emit w (.write log_file (head.take n)))
      | .ok =>
        let w1 := emit w (.write log_file head)
        -- if (vfprintf(log_file, fmt, args) < 0) return false;
        match e.vfprintf with
        | .fail n => (.ret false, emit w1 (.write log_file (msg.take n)))
        | .ok =>
          let w2 := emit w1 (.write log_file msg)
          -- fputc(10, log_file);   (the result is not looked at)
          let w3 := if e.fputc_ok then emit w2 (.write log_file "\n") else w2
          -- if (fflush(log_file) == EOF) return false;
          let w4 := emit w3 (.fflush log_file)
          if e.fflush_ok = false then (.ret false, w4)
          else (.ret true, w4)

/-- The function `do_log_to_file` (lines 94-105): the variadic front of
`v_do_log_to_file`. -/
def do_log_to_file (e : RecordEnv) (log_file : Stream) (log_level : Int)
    (func_name : String) (line_num : Int) (msg : String) (w : World) :
    Outcome Bool × World :=
  match v_do_log_to_file e log_file log_level func_name line_num msg w with
  | (.abort, w1) => (.abort, w1)
  | (.ret r, w1) => (.ret r, w1)

/-- The text logged at line 57. -/
def recursive_msg : String := "Trying to LOG() recursively! Please fix it."

/-- The text logged at line 87. -/
def open_error_msg : String :=
  "Couldn't open USR_LOG_FILE, logging to stderr! This may be " ++
  "caused by attempting to LOG() before initialization " ++
  "functions are called (e.g. init_homedir())."

/-- The code after the label `open_log_file_error` (lines 84-91). -/
def open_log_file_error (env : Env) (w : World) : Outcome (Option Stream) × World :=
  -- opening_log_file = false;
  let w1 := { w with opening_log_file := false }
  match do_log_to_file env.diag .stderr ERROR_LOG_LEVEL "open_log_file" 87
      open_error_msg w1 with
  | (.abort, w2) => (.abort, w2)
  | (.ret _, w2) => (.ret (some .stderr), w2)

/-- The function `open_log_file` (lines 51-92).  The result `none` stands for
`NULL`. -/
def open_log_file (env : Env) (w : World) : Outcome (Option Stream) × World :=
  -- if (opening_log_file) { do_log_to_file(stderr, ...); return stderr; }
  if w.opening_log_file then
    match do_log_to_file env.diag .stderr ERROR_LOG_LEVEL "open_log_file" 57
        recursive_msg w with
    | (.abort, w1) => (.abort, w1)
    | (.ret _, w1) => (.ret (some .stderr), w1)
  else
    -- opening_log_file = true;
    let w1 := { w with opening_log_file := true }
    -- expand_env(USR_LOG_FILE, expanded_log_file_path, MAXPATHL);
    let w2 := emit w1 (.expand_env USR_LOG_FILE)
    -- if (strcmp(USR_LOG_FILE, expanded_log_file_path) == 0) goto open_log_file_error;
    if USR_LOG_FILE = env.expanded_log_file_path then open_log_file_error env w2
    else
      -- log_file = fopen(expanded_log_file_path, "a");
      let w3 := emit w2 (.fopen env.expanded_log_file_path "a")
      -- if (log_file == NULL) goto open_log_file_error;
      if env.fopen_ok = false then open_log_file_error env w3
      else
        -- opening_log_file = false; return log_file;
        let w4 := { w3 with opening_log_file := false }
        (.ret (some (.file env.expanded_log_file_path)), w4)

/-- The function `do_log` (lines 26-45). -/
def do_log (env : Env) (log_level : Int) (func_name : String) (line_num : Int)
    (msg : String) (w : World) : Outcome Bool × World :=
  match open_log_file env w with
  | (.abort, w1) => (.abort, w1)
  -- if (log_file == NULL) return false;
  | (.ret none, w1) => (.ret false, w1)
  | (.ret (some log_file), w1) =>
    match v_do_log_to_file env.caller log_file log_level func_name line_num msg w1 with
    | (.abort, w2) => (.abort, w2)
    | (.ret r, w2) =>
      -- if (log_file != stderr && log_file != stdout) fclose(log_file);
      let w3 := if log_file ≠ .stderr ∧ log_file ≠ .stdout then emit w2 (.fclose log_file)
        else w2
      (.ret r, w3)

/-! ## Observations on a trace -/

/-- The entries which a run that started in `w` and ended in `w'` added to the trace. -/
def added (w w' : World) : List Entry := w'.trace.drop w.trace.length

/-- The bytes which a call hands to the stream `s`. -/
def Call.bytes_to (s : Stream) : Call → String
  | .write f bytes => if f = s then bytes else ""
  | .expand_env _ => ""
  | .fopen _ _ => ""
  | .fflush _ => ""
  | .fclose _ => ""

/-- The bytes which the calls of a trace hand to the stream `s`, in order. -/
def written (s : Stream) (t : List Entry) : String :=
  t.foldr (fun x acc => x.call.bytes_to s ++ acc) ""

/-- The call is a path expansion or an attempt to open a file. -/
def Call.is_resolution : Call → Bool
  | .expand_env _ => true
  | .fopen _ _ => true
  | .write _ _ => false
  | .fflush _ => false
  | .fclose _ => false

/-- The call writes to or flushes the stream `s`. -/
def Call.is_output_to (s : Stream) : Call → Bool
  | .write f _ => decide (f = s)
  | .fflush f => decide (f = s)
  | .expand_env _ => false
  | .fopen _ _ => false
  | .fclose _ => false

/-- The sources handed to `expand_env` by the calls of a trace, in order. -/
def expansions (t : List Entry) : List String :=
  t.filterMap (fun x => match x.call with
    | .expand_env src => some src
    | .fopen _ _ => none
    | .write _ _ => none
    | .fflush _ => none
    | .fclose _ => none)

/-- The paths handed to `fopen` by the calls of a trace, in order. -/
def opens (t : List Entry) : List String :=
  t.filterMap (fun x => match x.call with
    | .fopen path _ => some path
    | .expand_env _ => none
    | .write _ _ => none
    | .fflush _ => none
    | .fclose _ => none)

/-- The streams which the calls of a trace close, in order. -/
def closed (t : List Entry) : List Stream :=
  t.filterMap (fun x => match x.call with
    | .fclose f => some f
    | .write _ _ => none
    | .fflush _ => none
    | .expand_env _ => none
    | .fopen _ _ => none)

/-- Every step of writing one record succeeds, and `strftime` produces `ts`. -/
def RecordEnv.succeeds (e : RecordEnv) (ts : String) : Prop :=
  e.gettimeofday_ok = true ∧ e.date_time = some ts ∧ e.fprintf = .ok ∧ e.vfprintf = .ok ∧
    e.fputc_ok = true ∧ e.fflush_ok = true

instance (e : RecordEnv) (ts : String) : Decidable (e.succeeds ts) := by
  unfold RecordEnv.succeeds
  infer_instance

/-! ## The line of the spec, and inputs for the examples -/

/-- The line of the spec, section 6:
`<timestamp> [<level-label> @ <function>:<line>] <pid> - <formatted message>` and a
newline. -/
def spec_line (ts label func_name : String) (line_num pid : Int) (msg : String) : String :=
  ts ++ " [" ++ label ++ " @ " ++ func_name ++ ":" ++ toString line_num ++ "] "
    ++ toString pid ++ " - " ++ msg ++ "\n"

/-- Answers with which every step of writing one record succeeds. -/
def ok_record (ts : String) (pid : Int) : RecordEnv :=
  ⟨true, some ts, pid, .ok, .ok, true, true⟩

/-- An environment in which the path expands and the file opens. -/
def env_file : Env :=
  ⟨"/home/u/.nvimlog", true, ok_record "2024/01/02 03:04:04" 1234,
    ok_record "2024/01/02 03:04:05" 1234⟩

/-- A state with the flag clear and an empty trace. -/
def w_clear : World := ⟨false, []⟩

/-- A state with the flag set and an empty trace. -/
def w_guarded : World := ⟨true, []⟩

/-- An environment in which `expand_env` leaves the path unchanged. -/
def env_noop : Env :=
  ⟨USR_LOG_FILE, true, ok_record "2024/01/02 03:04:04" 1234,
    ok_record "2024/01/02 03:04:05" 1234⟩

/-- As `env_noop`, but `strftime` returns 0 for the record of the caller. -/
def env_noop_strftime_fails : Env :=
  ⟨USR_LOG_FILE, true, ok_record "2024/01/02 03:04:04" 1234,
    ⟨true, none, 1234, .ok, .ok, true, true⟩⟩

/-- As `env_file`, but the `fputc` of the record of the caller does not store its
byte. -/
def env_fputc_fails : Env :=
  ⟨"/home/u/.nvimlog", true, ok_record "2024/01/02 03:04:04" 1234,
    ⟨true, some "2024/01/02 03:04:05", 1234, .ok, .ok, false, true⟩⟩

/-- As `env_noop`, but `gettimeofday` fails for the record of the caller. -/
def env_noop_clock_fails : Env :=
  ⟨USR_LOG_FILE, true, ok_record "2024/01/02 03:04:04" 1234,
    ⟨false, some "2024/01/02 03:04:05", 1234, .ok, .ok, true, true⟩⟩

/-- As `env_file`, but `gettimeofday` fails for the record of the caller. -/
def env_file_clock_fails : Env :=
  ⟨"/home/u/.nvimlog", true, ok_record "2024/01/02 03:04:04" 1234,
    ⟨false, some "2024/01/02 03:04:05", 1234, .ok, .ok, true, true⟩⟩

/-! ## Lemmas on the trace -/

/-- The entries added by a run whose trace extends the trace at entry by `L`. -/
theorem added_append (w : World) (g : Bool) (L : List Entry) :
    added w ⟨g, w.trace ++ L⟩ = L := by
  simp [added]

/-- Nothing is written by an empty trace. -/
theorem written_nil (s : Stream) : written s [] = "" := rfl

/-- The bytes written by a trace, entry by entry. -/
theorem written_cons (s : Stream) (x : Entry) (t : List Entry) :
    written s (x :: t) = x.call.bytes_to s ++ written s t := rfl

/-- The bytes written by two traces in a row. -/
theorem written_append (s : Stream) (t u : List Entry) :
    written s (t ++ u) = written s t ++ written s u := by
  induction t with
  | nil => simp [written_nil]
  | cons x t ih => simp [written_cons, ih, String.append_assoc]

/-! ## Lemmas on `v_do_log_to_file` -/

/-- At a level outside the range the assertion of line 117 fails, before any call. -/
theorem v_do_log_to_file_invalid (e : RecordEnv) (f : Stream) (log_level : Int)
    (func_name : String) (line_num : Int) (msg : String) (w : World)
    (h : ¬ (DEBUG_LOG_LEVEL ≤ log_level ∧ log_level ≤ ERROR_LOG_LEVEL)) :
    v_do_log_to_file e f log_level func_name line_num msg w = (.abort, w) := by
  unfold v_do_log_to_file
  rw [if_pos (by simpa [ge_iff_le] using h)]

/-- At a valid level `v_do_log_to_file` returns; the flag is untouched, the calls it
makes are writes and flushes of `log_file`, there is none when the clock read fails,
and the result is true exactly when the five checked steps succeed. -/
theorem v_do_log_to_file_valid (e : RecordEnv) (f : Stream) (log_level : Int)
    (func_name : String) (line_num : Int) (msg : String) (w : World)
    (hlo : DEBUG_LOG_LEVEL ≤ log_level) (hhi : log_level ≤ ERROR_LOG_LEVEL) :
    ∃ b L, v_do_log_to_file e f log_level func_name line_num msg w
        = (.ret b, ⟨w.opening_log_file, w.trace ++ L⟩) ∧
      (b = true ↔ e.gettimeofday_ok = true ∧ e.date_time.isSome = true ∧ e.fprintf = .ok ∧
        e.vfprintf = .ok ∧ e.fflush_ok = true) ∧
      (e.gettimeofday_ok = false → L = []) ∧
      ∀ x ∈ L, x.guard = w.opening_log_file ∧ x.call.is_output_to f = true := by
  unfold v_do_log_to_file
  rw [if_neg (by simp [ge_iff_le, hlo, hhi])]
  rcases e with ⟨c, d, p, fp, vp, pc, fl⟩
  cases c
  · exact ⟨false, [], by simp, by simp, by simp, by simp⟩
  cases d with
  | none => exact ⟨false, [], by simp, by simp, by simp, by simp⟩
  | some ts =>
    cases fp with
    | fail n =>
      simp only [emit, List.append_assoc, List.singleton_append, List.cons_append]
      exact ⟨_, _, rfl, by simp, by simp, by simp [Call.is_output_to]⟩
    | ok =>
      cases vp with
      | fail n =>
        simp only [emit, List.append_assoc, List.singleton_append, List.cons_append]
        exact ⟨_, _, rfl, by simp, by simp, by simp [Call.is_output_to]⟩
      | ok =>
        cases pc <;> cases fl <;>
        · simp only [emit, List.append_assoc, List.singleton_append, List.cons_append,
            if_true, if_false, Bool.false_eq_true]
          exact ⟨_, _, rfl, by simp, by simp, by simp [Call.is_output_to]⟩


/-- The run of `v_do_log_to_file` in which every step succeeds. -/
theorem v_do_log_to_file_ok (e : RecordEnv) (f : Stream) (log_level : Int)
    (func_name : String) (line_num : Int) (msg ts : String) (w : World)
    (hlo : DEBUG_LOG_LEVEL ≤ log_level) (hhi : log_level ≤ ERROR_LOG_LEVEL)
    (hclock : e.gettimeofday_ok = true) (hts : e.date_time = some ts)
    (hfprintf : e.fprintf = .ok) (hvfprintf : e.vfprintf = .ok)
    (hfputc : e.fputc_ok = true) (hflush : e.fflush_ok = true) :
    v_do_log_to_file e f log_level func_name line_num msg w
      = (.ret true, ⟨w.opening_log_file, w.trace ++
          [ ⟨w.opening_log_file, .write f (ts ++ " [" ++ log_levels_at log_level ++ " @ "
              ++ func_name ++ ":" ++ toString line_num ++ "] " ++ toString e.pid ++ " - ")⟩,
            ⟨w.opening_log_file, .write f msg⟩,
            ⟨w.opening_log_file, .write f "\n"⟩,
            ⟨w.opening_log_file, .fflush f⟩ ]⟩) := by
  unfold v_do_log_to_file
  rw [if_neg (by simp [ge_iff_le, hlo, hhi])]
  simp [hclock, hts, hfprintf, hvfprintf, hfputc, hflush, emit]

/-! ## Lemmas on `open_log_file` -/

/-- The level of the records of `open_log_file` passes the assertion. -/
theorem error_level_valid :
    DEBUG_LOG_LEVEL ≤ ERROR_LOG_LEVEL ∧ ERROR_LOG_LEVEL ≤ ERROR_LOG_LEVEL := by decide

/-- The calls `do_log_to_file(stderr, ERROR_LOG_LEVEL, ...)` of `open_log_file` return. -/
theorem do_log_to_file_diag (e : RecordEnv) (line_num : Int) (msg : String) (w : World) :
    ∃ b, do_log_to_file e .stderr ERROR_LOG_LEVEL "open_log_file" line_num msg w
      = (.ret b, (v_do_log_to_file e .stderr ERROR_LOG_LEVEL "open_log_file" line_num
          msg w).2) := by
  obtain ⟨b, L, h, -⟩ := v_do_log_to_file_valid e .stderr ERROR_LOG_LEVEL "open_log_file"
    line_num msg w error_level_valid.1 error_level_valid.2
  exact ⟨b, by simp [do_log_to_file, h]⟩

/-- The run of `open_log_file` entered with the flag set (lines 56-60). -/
theorem open_log_file_guarded (env : Env) (w : World) (hg : w.opening_log_file = true) :
    open_log_file env w = (.ret (some .stderr),
      (v_do_log_to_file env.diag .stderr ERROR_LOG_LEVEL "open_log_file" 57
        recursive_msg w).2) := by
  obtain ⟨b, h⟩ := do_log_to_file_diag env.diag 57 recursive_msg w
  simp [open_log_file, hg, h]

/-- The code after the label `open_log_file_error` returns `stderr`. -/
theorem open_log_file_error_eq (env : Env) (w : World) :
    open_log_file_error env w = (.ret (some .stderr),
      (v_do_log_to_file env.diag .stderr ERROR_LOG_LEVEL "open_log_file" 87
        open_error_msg ⟨false, w.trace⟩).2) := by
  obtain ⟨b, h⟩ := do_log_to_file_diag env.diag 87 open_error_msg ⟨false, w.trace⟩
  simp [open_log_file_error, h]

/-- The run of `open_log_file` in which the path expands and the file opens. -/
theorem open_log_file_opened (env : Env) (w : World) (hg : w.opening_log_file = false)
    (hexp : USR_LOG_FILE ≠ env.expanded_log_file_path) (hopen : env.fopen_ok = true) :
    open_log_file env w = (.ret (some (.file env.expanded_log_file_path)),
      ⟨false, w.trace ++ [ ⟨true, .expand_env USR_LOG_FILE⟩,
        ⟨true, .fopen env.expanded_log_file_path "a"⟩ ]⟩) := by
  simp [open_log_file, hg, hexp, hopen, emit]

/-- The run of `open_log_file` in which `expand_env` leaves the path unchanged. -/
theorem open_log_file_noop (env : Env) (w : World) (hg : w.opening_log_file = false)
    (hexp : USR_LOG_FILE = env.expanded_log_file_path) :
    open_log_file env w = (.ret (some .stderr),
      (v_do_log_to_file env.diag .stderr ERROR_LOG_LEVEL "open_log_file" 87 open_error_msg
        ⟨false, w.trace ++ [⟨true, .expand_env USR_LOG_FILE⟩]⟩).2) := by
  unfold open_log_file
  rw [if_neg (by simp [hg]), if_pos hexp, open_log_file_error_eq]
  simp [emit]

/-- The run of `open_log_file` in which `fopen` returns `NULL`. -/
theorem open_log_file_open_failed (env : Env) (w : World) (hg : w.opening_log_file = false)
    (hexp : USR_LOG_FILE ≠ env.expanded_log_file_path) (hopen : env.fopen_ok = false) :
    open_log_file env w = (.ret (some .stderr),
      (v_do_log_to_file env.diag .stderr ERROR_LOG_LEVEL "open_log_file" 87 open_error_msg
        ⟨false, w.trace ++ [ ⟨true, .expand_env USR_LOG_FILE⟩,
          ⟨true, .fopen env.expanded_log_file_path "a"⟩ ]⟩).2) := by
  unfold open_log_file
  rw [if_neg (by simp [hg]), if_neg hexp, if_pos hopen, open_log_file_error_eq]
  simp [emit]


/-- Every run of `open_log_file`: it returns a stream and leaves the flag as it was at
entry; its calls are the resolution calls `R` followed by the output `D` of its own
record on `stderr`; one of four cases holds. -/
theorem open_log_file_shape (env : Env) (w : World) :
    ∃ dst R D, open_log_file env w
        = (.ret (some dst), ⟨w.opening_log_file, w.trace ++ (R ++ D)⟩) ∧
      (∀ x ∈ D, x.guard = w.opening_log_file ∧ x.call.is_output_to .stderr = true) ∧
      ((w.opening_log_file = true ∧ dst = .stderr ∧ R = []) ∨
       (w.opening_log_file = false ∧ USR_LOG_FILE ≠ env.expanded_log_file_path ∧
          env.fopen_ok = true ∧ dst = .file env.expanded_log_file_path ∧
          R = [ ⟨true, .expand_env USR_LOG_FILE⟩,
                ⟨true, .fopen env.expanded_log_file_path "a"⟩ ] ∧ D = []) ∨
       (w.opening_log_file = false ∧ USR_LOG_FILE = env.expanded_log_file_path ∧
          dst = .stderr ∧ R = [⟨true, .expand_env USR_LOG_FILE⟩]) ∨
       (w.opening_log_file = false ∧ USR_LOG_FILE ≠ env.expanded_log_file_path ∧
          env.fopen_ok = false ∧ dst = .stderr ∧
          R = [ ⟨true, .expand_env USR_LOG_FILE⟩,
                ⟨true, .fopen env.expanded_log_file_path "a"⟩ ])) := by
  cases hg : w.opening_log_file with
  | true =>
    obtain ⟨b, L, h, -, -, hL⟩ := v_do_log_to_file_valid env.diag .stderr ERROR_LOG_LEVEL
      "open_log_file" 57 recursive_msg w error_level_valid.1 error_level_valid.2
    refine ⟨.stderr, [], L, ?_, ?_, Or.inl ⟨rfl, rfl, rfl⟩⟩
    · rw [open_log_file_guarded env w hg, h, hg]; rfl
    · simpa [hg] using hL
  | false =>
    by_cases hexp : USR_LOG_FILE = env.expanded_log_file_path
    · obtain ⟨b, L, h, -, -, hL⟩ := v_do_log_to_file_valid env.diag .stderr ERROR_LOG_LEVEL
        "open_log_file" 87 open_error_msg
        ⟨false, w.trace ++ [⟨true, .expand_env USR_LOG_FILE⟩]⟩
        error_level_valid.1 error_level_valid.2
      refine ⟨.stderr, _, L, ?_, hL, Or.inr (Or.inr (Or.inl ⟨rfl, hexp, rfl, rfl⟩))⟩
      rw [open_log_file_noop env w hg hexp, h]
      simp
    · cases hopen : env.fopen_ok with
      | true =>
        exact ⟨_, _, [], by rw [open_log_file_opened env w hg hexp hopen]; simp, by simp,
          Or.inr (Or.inl ⟨rfl, hexp, rfl, rfl, rfl, rfl⟩)⟩
      | false =>
        obtain ⟨b, L, h, -, -, hL⟩ := v_do_log_to_file_valid env.diag .stderr
          ERROR_LOG_LEVEL "open_log_file" 87 open_error_msg
          ⟨false, w.trace ++ [ ⟨true, .expand_env USR_LOG_FILE⟩,
            ⟨true, .fopen env.expanded_log_file_path "a"⟩ ]⟩
          error_level_valid.1 error_level_valid.2
        refine ⟨.stderr, _, L, ?_, hL, Or.inr (Or.inr (Or.inr ⟨rfl, hexp, rfl, rfl, rfl⟩))⟩
        rw [open_log_file_open_failed env w hg hexp hopen, h]
        simp

/-! ## Lemmas on `do_log` -/

/-- The body of `do_log` after `open_log_file` has returned a stream. -/
theorem do_log_of_open (env : Env) (log_level : Int) (func_name : String) (line_num : Int)
    (msg : String) (w : World) (dst : Stream) (w1 : World)
    (h : open_log_file env w = (.ret (some dst), w1)) :
    do_log env log_level func_name line_num msg w
      = match v_do_log_to_file env.caller dst log_level func_name line_num msg w1 with
        | (.abort, w2) => (.abort, w2)
        | (.ret r, w2) =>
          (.ret r, if dst ≠ .stderr ∧ dst ≠ .stdout then emit w2 (.fclose dst) else w2) := by
  unfold do_log
  rw [h]

/-- At a level outside the range `do_log` ends in the failed assertion, in the state
which `open_log_file` left. -/
theorem do_log_invalid (env : Env) (log_level : Int) (func_name : String) (line_num : Int)
    (msg : String) (w : World)
    (h : ¬ (DEBUG_LOG_LEVEL ≤ log_level ∧ log_level ≤ ERROR_LOG_LEVEL)) :
    do_log env log_level func_name line_num msg w = (.abort, (open_log_file env w).2) := by
  obtain ⟨dst, R, D, ho, -⟩ := open_log_file_shape env w
  rw [do_log_of_open env log_level func_name line_num msg w dst _ ho,
    v_do_log_to_file_invalid _ _ _ _ _ _ _ h, ho]

/-- Every run of `do_log` at a valid level: the calls of `open_log_file`, then the
output `C` of the record of the caller on the destination, then the `fclose` when the
destination is not a process-wide stream. -/
theorem do_log_shape (env : Env) (log_level : Int) (func_name : String) (line_num : Int)
    (msg : String) (w : World)
    (hlo : DEBUG_LOG_LEVEL ≤ log_level) (hhi : log_level ≤ ERROR_LOG_LEVEL) :
    ∃ dst R D b C, open_log_file env w
        = (.ret (some dst), ⟨w.opening_log_file, w.trace ++ (R ++ D)⟩) ∧
      do_log env log_level func_name line_num msg w
        = (.ret b, ⟨w.opening_log_file, w.trace ++ (R ++ D ++ C ++
            if dst ≠ .stderr ∧ dst ≠ .stdout then [⟨w.opening_log_file, .fclose dst⟩]
            else [])⟩) ∧
      (b = true ↔ env.caller.gettimeofday_ok = true ∧ env.caller.date_time.isSome = true ∧
        env.caller.fprintf = .ok ∧ env.caller.vfprintf = .ok ∧
        env.caller.fflush_ok = true) ∧
      (env.caller.gettimeofday_ok = false → C = []) ∧
      (∀ x ∈ D, x.guard = w.opening_log_file ∧ x.call.is_output_to .stderr = true) ∧
      (∀ x ∈ C, x.guard = w.opening_log_file ∧ x.call.is_output_to dst = true) ∧
      ((w.opening_log_file = true ∧ dst = .stderr ∧ R = []) ∨
       (w.opening_log_file = false ∧ USR_LOG_FILE ≠ env.expanded_log_file_path ∧
          env.fopen_ok = true ∧ dst = .file env.expanded_log_file_path ∧
          R = [ ⟨true, .expand_env USR_LOG_FILE⟩,
                ⟨true, .fopen env.expanded_log_file_path "a"⟩ ] ∧ D = []) ∨
       (w.opening_log_file = false ∧ USR_LOG_FILE = env.expanded_log_file_path ∧
          dst = .stderr ∧ R = [⟨true, .expand_env USR_LOG_FILE⟩]) ∨
       (w.opening_log_file = false ∧ USR_LOG_FILE ≠ env.expanded_log_file_path ∧
          env.fopen_ok = false ∧ dst = .stderr ∧
          R = [ ⟨true, .expand_env USR_LOG_FILE⟩,
                ⟨true, .fopen env.expanded_log_file_path "a"⟩ ])) := by
  obtain ⟨dst, R, D, ho, hD, hcase⟩ := open_log_file_shape env w
  obtain ⟨b, C, hv, hb, hclock, hC⟩ := v_do_log_to_file_valid env.caller dst log_level
    func_name line_num msg ⟨w.opening_log_file, w.trace ++ (R ++ D)⟩ hlo hhi
  refine ⟨dst, R, D, b, C, ho, ?_, hb, hclock, hD, hC, hcase⟩
  rw [do_log_of_open env log_level func_name line_num msg w dst _ ho, hv]
  by_cases hd : dst ≠ .stderr ∧ dst ≠ .stdout
  · simp [hd, emit]
  · simp [hd]

/-- The run of `do_log` in which the file opens and every step succeeds. -/
theorem do_log_opened_ok (env : Env) (w : World) (log_level : Int)
    (func_name : String) (line_num : Int) (msg ts : String)
    (hlo : DEBUG_LOG_LEVEL ≤ log_level) (hhi : log_level ≤ ERROR_LOG_LEVEL)
    (hguard : w.opening_log_file = false)
    (hexp : env.expanded_log_file_path ≠ USR_LOG_FILE) (hopen : env.fopen_ok = true)
    (hclock : env.caller.gettimeofday_ok = true) (hts : env.caller.date_time = some ts)
    (hfprintf : env.caller.fprintf = .ok) (hvfprintf : env.caller.vfprintf = .ok)
    (hfputc : env.caller.fputc_ok = true) (hflush : env.caller.fflush_ok = true) :
    do_log env log_level func_name line_num msg w = (.ret true, ⟨false, w.trace ++
      [ ⟨true, .expand_env USR_LOG_FILE⟩,
        ⟨true, .fopen env.expanded_log_file_path "a"⟩,
        ⟨false, .write (.file env.expanded_log_file_path)
          (ts ++ " [" ++ log_levels_at log_level ++ " @ " ++ func_name ++ ":"
            ++ toString line_num ++ "] " ++ toString env.caller.pid ++ " - ")⟩,
        ⟨false, .write (.file env.expanded_log_file_path) msg⟩,
        ⟨false, .write (.file env.expanded_log_file_path) "\n"⟩,
        ⟨false, .fflush (.file env.expanded_log_file_path)⟩,
        ⟨false, .fclose (.file env.expanded_log_file_path)⟩ ]⟩) := by
  rw [do_log_of_open env log_level func_name line_num msg w _ _
      (open_log_file_opened env w hguard (fun h => hexp h.symm) hopen),
    v_do_log_to_file_ok env.caller _ log_level func_name line_num msg ts _ hlo hhi hclock hts
      hfprintf hvfprintf hfputc hflush]
  simp [emit]

/-! ## The claims -/

/-- C1: for each of the four levels, when the flag is clear, the path expands, the
file opens, and the clock read, the timestamp formatting, the three writes and the
flush of the caller's record succeed, `do_log` returns true, the bytes handed to the
opened file are exactly `<timestamp> [<label> @ <function>:<line>] <pid> - <message>`
followed by a newline, and no byte goes to any other stream. -/
theorem do_log_file_record (env : Env) (w : World) (log_level : Int)
    (label func_name : String) (line_num : Int) (msg ts : String)
    (hlevel : (log_level = DEBUG_LOG_LEVEL ∧ label = "debug") ∨
      (log_level = INFO_LOG_LEVEL ∧ label = "info") ∨
      (log_level = WARNING_LOG_LEVEL ∧ label = "warning") ∨
      (log_level = ERROR_LOG_LEVEL ∧ label = "error"))
    (hguard : w.opening_log_file = false)
    (hexp : env.expanded_log_file_path ≠ USR_LOG_FILE) (hopen : env.fopen_ok = true)
    (hclock : env.caller.gettimeofday_ok = true) (hts : env.caller.date_time = some ts)
    (hfprintf : env.caller.fprintf = .ok) (hvfprintf : env.caller.vfprintf = .ok)
    (hfputc : env.caller.fputc_ok = true) (hflush : env.caller.fflush_ok = true) :
    (do_log env log_level func_name line_num msg w).1 = .ret true ∧
    written (.file env.expanded_log_file_path)
        (added w (do_log env log_level func_name line_num msg w).2)
      = ts ++ " [" ++ label ++ " @ " ++ func_name ++ ":" ++ toString line_num ++ "] "
          ++ toString env.caller.pid ++ " - " ++ msg ++ "\n" ∧
    ∀ s, s ≠ .file env.expanded_log_file_path →
      written s (added w (do_log env log_level func_name line_num msg w).2) = "" := by
  have hlab : log_levels_at log_level = label ∧ DEBUG_LOG_LEVEL ≤ log_level ∧
      log_level ≤ ERROR_LOG_LEVEL := by
    rcases hlevel with ⟨rfl, rfl⟩ | ⟨rfl, rfl⟩ | ⟨rfl, rfl⟩ | ⟨rfl, rfl⟩ <;> decide
  rw [do_log_opened_ok env w log_level func_name line_num msg ts hlab.2.1 hlab.2.2 hguard hexp
    hopen hclock hts hfprintf hvfprintf hfputc hflush, hlab.1]
  refine ⟨rfl, ?_, ?_⟩
  · simp [added_append, written_cons, written_nil, Call.bytes_to, String.append_assoc]
  · intro s hs
    have hs' : ¬ Stream.file env.expanded_log_file_path = s := fun h => hs h.symm
    simp [added_append, written_cons, written_nil, Call.bytes_to, hs']

/-- Witness of C1: level Info, function `doThing`, line 42, message `value=7`,
timestamp `2024/01/02 03:04:05`, pid 1234. -/
theorem do_log_file_record_witness :
    (do_log env_file 1 "doThing" 42 "value=7" w_clear).1 = .ret true ∧
    written (.file "/home/u/.nvimlog")
        (added w_clear (do_log env_file 1 "doThing" 42 "value=7" w_clear).2)
      = "2024/01/02 03:04:05 [info @ doThing:42] 1234 - value=7\n" ∧
    written .stderr (added w_clear (do_log env_file 1 "doThing" 42 "value=7" w_clear).2)
      = "" :=
  have h := do_log_file_record env_file w_clear 1 "info" "doThing" 42 "value=7"
    "2024/01/02 03:04:05" (by decide) rfl (by decide) rfl rfl rfl rfl rfl rfl rfl
  ⟨h.1, h.2.1, h.2.2 .stderr (by decide)⟩

/-- The run of `do_log` on the fallback stream in which every step of the record of
the caller succeeds. -/
theorem do_log_stderr_ok (env : Env) (w w1 : World) (log_level : Int)
    (func_name : String) (line_num : Int) (msg ts : String)
    (hlo : DEBUG_LOG_LEVEL ≤ log_level) (hhi : log_level ≤ ERROR_LOG_LEVEL)
    (ho : open_log_file env w = (.ret (some .stderr), w1))
    (hc : env.caller.succeeds ts) :
    do_log env log_level func_name line_num msg w = (.ret true, ⟨w1.opening_log_file,
      w1.trace ++
      [ ⟨w1.opening_log_file, .write .stderr (ts ++ " [" ++ log_levels_at log_level ++ " @ "
          ++ func_name ++ ":" ++ toString line_num ++ "] " ++ toString env.caller.pid
          ++ " - ")⟩,
        ⟨w1.opening_log_file, .write .stderr msg⟩,
        ⟨w1.opening_log_file, .write .stderr "\n"⟩,
        ⟨w1.opening_log_file, .fflush .stderr⟩ ]⟩) := by
  obtain ⟨h1, h2, h3, h4, h5, h6⟩ := hc
  rw [do_log_of_open env log_level func_name line_num msg w _ _ ho,
    v_do_log_to_file_ok env.caller _ log_level func_name line_num msg ts _ hlo hhi h1 h2 h3
      h4 h5 h6]
  simp

/-- The run of the record of `open_log_file` in which every step succeeds. -/
theorem diag_ok (e : RecordEnv) (line_num : Int) (msg ts : String) (w : World)
    (hd : e.succeeds ts) :
    (v_do_log_to_file e .stderr ERROR_LOG_LEVEL "open_log_file" line_num msg w).2
      = ⟨w.opening_log_file, w.trace ++
          [ ⟨w.opening_log_file, .write .stderr (ts ++ " [error @ open_log_file:"
              ++ toString line_num ++ "] " ++ toString e.pid ++ " - ")⟩,
            ⟨w.opening_log_file, .write .stderr msg⟩,
            ⟨w.opening_log_file, .write .stderr "\n"⟩,
            ⟨w.opening_log_file, .fflush .stderr⟩ ]⟩ := by
  obtain ⟨h1, h2, h3, h4, h5, h6⟩ := hd
  rw [v_do_log_to_file_ok e _ ERROR_LOG_LEVEL "open_log_file" line_num msg ts _
    error_level_valid.1 error_level_valid.2 h1 h2 h3 h4 h5 h6]
  have hl : log_levels_at ERROR_LOG_LEVEL = "error" := by decide
  simp [hl, String.append_assoc]

/-- Each of the four levels is valid and selects its label in `log_levels`. -/
theorem level_label (log_level : Int) (label : String)
    (hlevel : (log_level = DEBUG_LOG_LEVEL ∧ label = "debug") ∨
      (log_level = INFO_LOG_LEVEL ∧ label = "info") ∨
      (log_level = WARNING_LOG_LEVEL ∧ label = "warning") ∨
      (log_level = ERROR_LOG_LEVEL ∧ label = "error")) :
    log_levels_at log_level = label ∧ DEBUG_LOG_LEVEL ≤ log_level ∧
      log_level ≤ ERROR_LOG_LEVEL := by
  rcases hlevel with ⟨rfl, rfl⟩ | ⟨rfl, rfl⟩ | ⟨rfl, rfl⟩ | ⟨rfl, rfl⟩ <;> decide

/-- C2, as amended: for each of the four levels, when the flag is clear at entry,
the expansion leaves the path unchanged or the open fails, and for both records the
clock read, the timestamp formatting, the writes and the flush succeed, `do_log`
returns true and the fallback stream receives exactly two lines, the error-level
record of `open_log_file` and then the record of the caller; no byte goes to another
stream, nothing is closed, and no open is attempted when the expansion was a
no-op. -/
theorem do_log_fallback_two_records (env : Env) (w : World) (log_level : Int)
    (label func_name : String) (line_num : Int) (msg ts_diag ts : String)
    (hlevel : (log_level = DEBUG_LOG_LEVEL ∧ label = "debug") ∨
      (log_level = INFO_LOG_LEVEL ∧ label = "info") ∨
      (log_level = WARNING_LOG_LEVEL ∧ label = "warning") ∨
      (log_level = ERROR_LOG_LEVEL ∧ label = "error"))
    (hguard : w.opening_log_file = false)
    (hres : env.expanded_log_file_path = USR_LOG_FILE ∨ env.fopen_ok = false)
    (hdiag : env.diag.succeeds ts_diag) (hcaller : env.caller.succeeds ts) :
    (do_log env log_level func_name line_num msg w).1 = .ret true ∧
    written .stderr (added w (do_log env log_level func_name line_num msg w).2)
      = spec_line ts_diag "error" "open_log_file" 87 env.diag.pid open_error_msg
        ++ spec_line ts label func_name line_num env.caller.pid msg ∧
    (∀ s, s ≠ .stderr →
      written s (added w (do_log env log_level func_name line_num msg w).2) = "") ∧
    (env.expanded_log_file_path = USR_LOG_FILE →
      opens (added w (do_log env log_level func_name line_num msg w).2) = []) ∧
    closed (added w (do_log env log_level func_name line_num msg w).2) = [] := by
  obtain ⟨hlab, hlo, hhi⟩ := level_label log_level label hlevel
  by_cases hexp : USR_LOG_FILE = env.expanded_log_file_path
  · have ho := open_log_file_noop env w hguard hexp
    rw [diag_ok env.diag 87 open_error_msg ts_diag _ hdiag] at ho
    rw [do_log_stderr_ok env w _ log_level func_name line_num msg ts hlo hhi ho hcaller, hlab]
    refine ⟨rfl, ?_, ?_, ?_, ?_⟩
    · simp [added, written_cons, written_nil, Call.bytes_to, spec_line, String.append_assoc]
    · intro s hs
      have hs' : ¬ Stream.stderr = s := fun h => hs h.symm
      simp [added, written_cons, written_nil, Call.bytes_to, hs']
    · intro _
      simp [added, opens]
    · simp [added, closed]
  · have hopen : env.fopen_ok = false := by
      rcases hres with h | h
      · exact absurd h.symm hexp
      · exact h
    have ho := open_log_file_open_failed env w hguard hexp hopen
    rw [diag_ok env.diag 87 open_error_msg ts_diag _ hdiag] at ho
    rw [do_log_stderr_ok env w _ log_level func_name line_num msg ts hlo hhi ho hcaller, hlab]
    refine ⟨rfl, ?_, ?_, ?_, ?_⟩
    · simp [added, written_cons, written_nil, Call.bytes_to, spec_line, String.append_assoc]
    · intro s hs
      have hs' : ¬ Stream.stderr = s := fun h => hs h.symm
      simp [added, written_cons, written_nil, Call.bytes_to, hs']
    · intro h
      exact absurd h.symm hexp
    · simp [added, closed]

set_option maxRecDepth 100000 in
/-- Witness of C2 as amended: the expansion is a no-op, level Info. -/
theorem do_log_fallback_two_records_witness :
    (do_log env_noop 1 "doThing" 42 "value=7" w_clear).1 = .ret true ∧
    written .stderr (added w_clear (do_log env_noop 1 "doThing" 42 "value=7" w_clear).2)
      = "2024/01/02 03:04:04 [error @ open_log_file:87] 1234 - Couldn't open USR_LOG_FILE, logging to stderr! This may be caused by attempting to LOG() before initialization functions are called (e.g. init_homedir()).\n2024/01/02 03:04:05 [info @ doThing:42] 1234 - value=7\n" ∧
    opens (added w_clear (do_log env_noop 1 "doThing" 42 "value=7" w_clear).2) = [] ∧
    closed (added w_clear (do_log env_noop 1 "doThing" 42 "value=7" w_clear).2) = [] :=
  have h := do_log_fallback_two_records env_noop w_clear 1 "info" "doThing" 42 "value=7"
    "2024/01/02 03:04:04" "2024/01/02 03:04:05" (by decide) rfl (Or.inl rfl)
    ⟨rfl, rfl, rfl, rfl, rfl, rfl⟩ ⟨rfl, rfl, rfl, rfl, rfl, rfl⟩
  ⟨h.1, h.2.1, h.2.2.2.1 rfl, h.2.2.2.2⟩

set_option maxRecDepth 100000 in
/-- Counterexample to C2 as stated: the flag is clear, the expansion is a no-op, both
clock reads succeed and every write and flush succeeds, but `strftime` returns 0 for
the record of the caller; `do_log` returns false and the fallback stream holds one
line only. -/
theorem do_log_fallback_strftime_fails :
    w_clear.opening_log_file = false ∧
    env_noop_strftime_fails.expanded_log_file_path = USR_LOG_FILE ∧
    env_noop_strftime_fails.diag.gettimeofday_ok = true ∧
    env_noop_strftime_fails.caller.gettimeofday_ok = true ∧
    env_noop_strftime_fails.diag.succeeds "2024/01/02 03:04:04" ∧
    env_noop_strftime_fails.caller.fprintf = .ok ∧
    env_noop_strftime_fails.caller.vfprintf = .ok ∧
    env_noop_strftime_fails.caller.fputc_ok = true ∧
    env_noop_strftime_fails.caller.fflush_ok = true ∧
    (do_log env_noop_strftime_fails 1 "doThing" 42 "value=7" w_clear).1 = .ret false ∧
    written .stderr
        (added w_clear (do_log env_noop_strftime_fails 1 "doThing" 42 "value=7" w_clear).2)
      = "2024/01/02 03:04:04 [error @ open_log_file:87] 1234 - Couldn't open USR_LOG_FILE, logging to stderr! This may be caused by attempting to LOG() before initialization functions are called (e.g. init_homedir()).\n" := by
  refine ⟨rfl, rfl, rfl, rfl, ⟨rfl, rfl, rfl, rfl, rfl, rfl⟩, rfl, rfl, rfl, rfl, ?_, ?_⟩ <;>
    decide

/-! ## Traces of output calls -/

/-- Output calls expand no path. -/
theorem expansions_output (f : Stream) (L : List Entry)
    (h : ∀ x ∈ L, x.call.is_output_to f = true) : expansions L = [] := by
  induction L with
  | nil => rfl
  | cons x t ih =>
    have hx := h x (List.mem_cons_self x t)
    have ht := ih (fun y hy => h y (List.mem_cons_of_mem x hy))
    rcases x with ⟨g, c⟩
    cases c <;> simp_all [expansions, Call.is_output_to]

/-- Output calls open no file. -/
theorem opens_output (f : Stream) (L : List Entry)
    (h : ∀ x ∈ L, x.call.is_output_to f = true) : opens L = [] := by
  induction L with
  | nil => rfl
  | cons x t ih =>
    have hx := h x (List.mem_cons_self x t)
    have ht := ih (fun y hy => h y (List.mem_cons_of_mem x hy))
    rcases x with ⟨g, c⟩
    cases c <;> simp_all [opens, Call.is_output_to]

/-- Output calls close no stream. -/
theorem closed_output (f : Stream) (L : List Entry)
    (h : ∀ x ∈ L, x.call.is_output_to f = true) : closed L = [] := by
  induction L with
  | nil => rfl
  | cons x t ih =>
    have hx := h x (List.mem_cons_self x t)
    have ht := ih (fun y hy => h y (List.mem_cons_of_mem x hy))
    rcases x with ⟨g, c⟩
    cases c <;> simp_all [closed, Call.is_output_to]

/-- Output calls on `f` write nothing to another stream. -/
theorem written_output (f s : Stream) (hs : s ≠ f) (L : List Entry)
    (h : ∀ x ∈ L, x.call.is_output_to f = true) : written s L = "" := by
  induction L with
  | nil => rfl
  | cons x t ih =>
    have hx := h x (List.mem_cons_self x t)
    have ht := ih (fun y hy => h y (List.mem_cons_of_mem x hy))
    rcases x with ⟨g, c⟩
    cases c with
    | write f1 bytes =>
      have hf : f1 = f := by simpa [Call.is_output_to] using hx
      have hne : ¬ f1 = s := fun e => hs (e.symm.trans hf)
      simp [written_cons, Call.bytes_to, hne, ht]
    | fflush f1 => simp [written_cons, Call.bytes_to, ht]
    | expand_env src => simp [Call.is_output_to] at hx
    | fopen p m => simp [Call.is_output_to] at hx
    | fclose f1 => simp [Call.is_output_to] at hx

/-- The expansions of two traces in a row. -/
theorem expansions_append (t u : List Entry) :
    expansions (t ++ u) = expansions t ++ expansions u := by
  simp [expansions]

/-- The opens of two traces in a row. -/
theorem opens_append (t u : List Entry) : opens (t ++ u) = opens t ++ opens u := by
  simp [opens]

/-- The closes of two traces in a row. -/
theorem closed_append (t u : List Entry) : closed (t ++ u) = closed t ++ closed u := by
  simp [closed]

/-- An output call is no resolution call. -/
theorem output_not_resolution (f : Stream) (c : Call) (h : c.is_output_to f = true) :
    c.is_resolution = false := by
  cases c <;> simp_all [Call.is_output_to, Call.is_resolution]

/-! ## The claims, continued -/

/-- What decides the result of `do_log` at a valid level: the clock read, the
timestamp formatting, `fprintf`, `vfprintf` and `fflush`; the answer of `fputc` does
not occur. -/
theorem do_log_true_iff (env : Env) (w : World) (log_level : Int) (func_name : String)
    (line_num : Int) (msg : String)
    (hlo : DEBUG_LOG_LEVEL ≤ log_level) (hhi : log_level ≤ ERROR_LOG_LEVEL) :
    (do_log env log_level func_name line_num msg w).1 = .ret true ↔
      env.caller.gettimeofday_ok = true ∧ env.caller.date_time.isSome = true ∧
      env.caller.fprintf = .ok ∧ env.caller.vfprintf = .ok ∧
      env.caller.fflush_ok = true := by
  obtain ⟨dst, R, D, b, C, -, hd, hb, -⟩ :=
    do_log_shape env log_level func_name line_num msg w hlo hhi
  rw [hd, ← hb]
  simp

/-- C3, the failing input: the file opens, every checked step of the record of the
caller succeeds and `fputc` fails; `do_log` returns true although the write of the
terminating newline failed, and the bytes handed to the file do not end the line. -/
theorem do_log_true_though_fputc_fails :
    env_fputc_fails.caller.fputc_ok = false ∧
    (do_log env_fputc_fails 1 "doThing" 42 "value=7" w_clear).1 = .ret true ∧
    written (.file "/home/u/.nvimlog")
        (added w_clear (do_log env_fputc_fails 1 "doThing" 42 "value=7" w_clear).2)
      = "2024/01/02 03:04:05 [info @ doThing:42] 1234 - value=7" := by
  decide

/-- C5: for every level outside `DEBUG_LOG_LEVEL .. ERROR_LOG_LEVEL`, whatever the
state at entry and whatever path expansion, `fopen`, the clock reads and the writes
answer, `do_log` returns no boolean: the call ends in the failed assertion. -/
theorem do_log_invalid_level_aborts (env : Env) (w : World) (log_level : Int)
    (func_name : String) (line_num : Int) (msg : String)
    (h : log_level < DEBUG_LOG_LEVEL ∨ ERROR_LOG_LEVEL < log_level) :
    (do_log env log_level func_name line_num msg w).1 = .abort := by
  rw [do_log_invalid env log_level func_name line_num msg w (by omega)]

/-- Witness of C5: level 7. -/
theorem do_log_invalid_level_aborts_witness :
    ((7 : Int) < DEBUG_LOG_LEVEL ∨ ERROR_LOG_LEVEL < 7) ∧
    (do_log env_file 7 "doThing" 42 "value=7" w_clear).1 = .abort :=
  ⟨by decide, do_log_invalid_level_aborts env_file w_clear 7 "doThing" 42 "value=7"
    (by decide)⟩

/-- C10, as amended: for every level outside `DEBUG_LOG_LEVEL .. ERROR_LOG_LEVEL`,
`do_log` reaches the failed assertion after destination resolution and before any
step of the record of the caller: the state at the failure is the state which
`open_log_file` left, so the flag has the value it had at entry and nothing was
closed. -/
theorem do_log_invalid_level_state (env : Env) (w : World) (log_level : Int)
    (func_name : String) (line_num : Int) (msg : String)
    (h : log_level < DEBUG_LOG_LEVEL ∨ ERROR_LOG_LEVEL < log_level) :
    do_log env log_level func_name line_num msg w = (.abort, (open_log_file env w).2) ∧
    (do_log env log_level func_name line_num msg w).2.opening_log_file
      = w.opening_log_file ∧
    closed (added w (do_log env log_level func_name line_num msg w).2) = [] := by
  rw [do_log_invalid env log_level func_name line_num msg w (by omega)]
  obtain ⟨dst, R, D, ho, hD, hcase⟩ := open_log_file_shape env w
  rw [ho]
  refine ⟨rfl, rfl, ?_⟩
  have hDc := closed_output .stderr D (fun x hx => (hD x hx).2)
  have hR : closed R = [] := by
    rcases hcase with ⟨-, -, rfl⟩ | ⟨-, -, -, -, rfl, -⟩ | ⟨-, -, -, rfl⟩ | ⟨-, -, -, -, rfl⟩ <;>
      simp [closed]
  simp only [added_append, closed_append, hR, hDc, List.append_nil]

/-- Witness of C10 as amended: level 7, the file opens. -/
theorem do_log_invalid_level_state_witness :
    ((7 : Int) < DEBUG_LOG_LEVEL ∨ ERROR_LOG_LEVEL < 7) ∧
    do_log env_file 7 "doThing" 42 "value=7" w_clear
      = (.abort, (open_log_file env_file w_clear).2) ∧
    (do_log env_file 7 "doThing" 42 "value=7" w_clear).2.opening_log_file = false ∧
    closed (added w_clear (do_log env_file 7 "doThing" 42 "value=7" w_clear).2) = [] :=
  ⟨by decide, do_log_invalid_level_state env_file w_clear 7 "doThing" 42 "value=7"
    (by decide)⟩

set_option maxRecDepth 100000 in
/-- Counterexample to C10 as stated: at level 7 with the flag clear, the failed
assertion is reached after `expand_env` and `fopen` were called with the flag set
(first input), and after the record of `open_log_file` went to the fallback stream
(second input). -/
theorem do_log_invalid_level_after_resolution :
    do_log env_file 7 "doThing" 42 "value=7" w_clear
      = (.abort, ⟨false, [ ⟨true, .expand_env USR_LOG_FILE⟩,
          ⟨true, .fopen "/home/u/.nvimlog" "a"⟩ ]⟩) ∧
    (do_log env_noop 7 "doThing" 42 "value=7" w_clear).1 = .abort ∧
    written .stderr (added w_clear (do_log env_noop 7 "doThing" 42 "value=7" w_clear).2)
      = "2024/01/02 03:04:04 [error @ open_log_file:87] 1234 - Couldn't open USR_LOG_FILE, logging to stderr! This may be caused by attempting to LOG() before initialization functions are called (e.g. init_homedir()).\n" := by
  decide

/-- C6: for every valid level and all answers of the environment, `do_log` returns;
when `open_log_file` returned a newly opened file, that file is closed exactly once
and the `fclose` is the last call; when it returned the fallback stream, nothing is
closed.  `open_log_file` returns nothing else. -/
theorem do_log_closes_opened_file (env : Env) (w : World) (log_level : Int)
    (func_name : String) (line_num : Int) (msg : String)
    (hlo : DEBUG_LOG_LEVEL ≤ log_level) (hhi : log_level ≤ ERROR_LOG_LEVEL) :
    (∃ b, (do_log env log_level func_name line_num msg w).1 = .ret b) ∧
    (∀ p, (open_log_file env w).1 = .ret (some (.file p)) →
      closed (added w (do_log env log_level func_name line_num msg w).2) = [.file p] ∧
      ((added w (do_log env log_level func_name line_num msg w).2).getLast?).map Entry.call
        = some (.fclose (.file p))) ∧
    ((open_log_file env w).1 = .ret (some .stderr) →
      closed (added w (do_log env log_level func_name line_num msg w).2) = []) ∧
    ((open_log_file env w).1 = .ret (some (.file env.expanded_log_file_path)) ∨
      (open_log_file env w).1 = .ret (some .stderr)) := by
  obtain ⟨dst, R, D, b, C, ho, hd, -, -, hD, hC, hcase⟩ :=
    do_log_shape env log_level func_name line_num msg w hlo hhi
  rw [hd, ho]
  have hDc := closed_output .stderr D (fun x hx => (hD x hx).2)
  have hCc := closed_output dst C (fun x hx => (hC x hx).2)
  have hR : closed R = [] := by
    rcases hcase with ⟨-, -, rfl⟩ | ⟨-, -, -, -, rfl, -⟩ | ⟨-, -, -, rfl⟩ | ⟨-, -, -, -, rfl⟩ <;>
      simp [closed]
  refine ⟨⟨b, rfl⟩, ?_, ?_, ?_⟩
  · intro p hp
    have hp' : dst = .file p := by simpa using hp
    subst hp'
    simp only [added_append, closed_append, hDc, hCc, hR]
    simp [closed, List.getLast?_append]
  · intro hs
    have hs' : dst = .stderr := by simpa using hs
    subst hs'
    simp only [added_append, closed_append, hDc, hCc, hR]
    simp [closed]
  · rcases hcase with ⟨-, rfl, -⟩ | ⟨-, -, -, rfl, -⟩ | ⟨-, -, rfl, -⟩ | ⟨-, -, -, rfl, -⟩ <;>
      simp

/-- Witness of C6: level Info, the file opens. -/
theorem do_log_closes_opened_file_witness :
    (DEBUG_LOG_LEVEL ≤ 1 ∧ (1 : Int) ≤ ERROR_LOG_LEVEL) ∧
    (open_log_file env_file w_clear).1 = .ret (some (.file "/home/u/.nvimlog")) ∧
    closed (added w_clear (do_log env_file 1 "doThing" 42 "value=7" w_clear).2)
      = [.file "/home/u/.nvimlog"] ∧
    ((added w_clear (do_log env_file 1 "doThing" 42 "value=7" w_clear).2).getLast?).map
      Entry.call = some (.fclose (.file "/home/u/.nvimlog")) :=
  have h := do_log_closes_opened_file env_file w_clear 1 "doThing" 42 "value=7"
    (by decide) (by decide)
  ⟨by decide, by decide, h.2.1 "/home/u/.nvimlog" (by decide)⟩

/-- The bytes which one run of `v_do_log_to_file` at a valid level hands to its
stream are a leading part of the line of the record; they are none when `strftime`
returns 0. -/
theorem v_do_log_to_file_bytes (e : RecordEnv) (f : Stream) (log_level : Int)
    (func_name : String) (line_num : Int) (msg : String) (w : World)
    (hlo : DEBUG_LOG_LEVEL ≤ log_level) (hhi : log_level ≤ ERROR_LOG_LEVEL) :
    (e.date_time = none →
      written f (added w (v_do_log_to_file e f log_level func_name line_num msg w).2)
        = "") ∧
    (∀ ts, e.date_time = some ts →
      (written f
        (added w (v_do_log_to_file e f log_level func_name line_num msg w).2)).data
        <+: (spec_line ts (log_levels_at log_level) func_name line_num e.pid msg).data) := by
  have hw0 : added w w = [] := by simp [added]
  unfold v_do_log_to_file
  rw [if_neg (by simp [ge_iff_le, hlo, hhi])]
  rcases e with ⟨c, d, p, fp, vp, pc, fl⟩
  cases c
  · simp [hw0, written_nil]
  cases d with
  | none => simp [hw0, written_nil]
  | some ts0 =>
    refine ⟨by simp, ?_⟩
    intro ts hts
    have hts' : ts0 = ts := by simpa using hts
    subst hts'
    have hsl : (spec_line ts0 (log_levels_at log_level) func_name line_num p msg).data
        = (ts0 ++ " [" ++ log_levels_at log_level ++ " @ " ++ func_name ++ ":"
            ++ toString line_num ++ "] " ++ toString p ++ " - ").data
          ++ (msg.data ++ "\n".data) := by
      simp only [spec_line, String.data_append, List.append_assoc]
    rw [hsl]
    simp only [Bool.true_eq_false, if_false]
    generalize (ts0 ++ " [" ++ log_levels_at log_level ++ " @ " ++ func_name ++ ":"
            ++ toString line_num ++ "] " ++ toString p ++ " - ") = hd
    cases fp with
    | fail n =>
      simp only [emit, added_append, written_cons, written_nil, Call.bytes_to, if_true,
        String.append_empty, String.data_take]
      exact (List.take_prefix n hd.data).trans (List.prefix_append _ _)
    | ok =>
      cases vp with
      | fail n =>
        simp only [emit, List.append_assoc, List.singleton_append, List.cons_append,
          List.nil_append, added_append, written_cons, written_nil, Call.bytes_to, if_true,
          String.append_empty, String.data_append, String.data_take]
        exact (List.prefix_append_right_inj _).2
          ((List.take_prefix n msg.data).trans (List.prefix_append _ _))
      | ok =>
        cases pc <;> cases fl <;>
        · simp only [emit, List.append_assoc, List.singleton_append, List.cons_append,
            List.nil_append, added_append, written_cons, written_nil, Call.bytes_to,
            if_true, if_false, Bool.false_eq_true, Bool.true_eq_false, eq_self_iff_true,
            String.append_empty, String.data_append]
          first
            | exact List.prefix_rfl
            | exact (List.prefix_append_right_inj _).2 (List.prefix_append _ _)

/-- The entries added since `w`, when the first of them are `R`. -/
theorem added_extend (w : World) (g g' : Bool) (R L : List Entry) :
    added w ⟨g', (w.trace ++ R) ++ L⟩ = R ++ added ⟨g, w.trace ++ R⟩ ⟨g', (w.trace ++ R) ++ L⟩ := by
  simp [added]

/-- What `open_log_file` writes: nothing to a stream other than the fallback stream,
and to the fallback stream a leading part of the line of its own record (line 87 when
entered with the flag clear, line 57 when entered with the flag set), nothing at all
when `strftime` returns 0 for that record. -/
theorem open_log_file_bytes (env : Env) (w : World) :
    (∀ s, s ≠ .stderr → written s (added w (open_log_file env w).2) = "") ∧
    (env.diag.date_time = none →
      written .stderr (added w (open_log_file env w).2) = "") ∧
    (∀ ts, env.diag.date_time = some ts → w.opening_log_file = false →
      (written .stderr (added w (open_log_file env w).2)).data
        <+: (spec_line ts "error" "open_log_file" 87 env.diag.pid open_error_msg).data) ∧
    (∀ ts, env.diag.date_time = some ts → w.opening_log_file = true →
      (written .stderr (added w (open_log_file env w).2)).data
        <+: (spec_line ts "error" "open_log_file" 57 env.diag.pid recursive_msg).data) := by
  have hl : log_levels_at ERROR_LOG_LEVEL = "error" := by decide
  have key : ∀ (R : List Entry) (g : Bool) (ln : Int) (m : String),
      written .stderr R = "" →
      (env.diag.date_time = none →
        written .stderr (added w (v_do_log_to_file env.diag .stderr ERROR_LOG_LEVEL
          "open_log_file" ln m ⟨g, w.trace ++ R⟩).2) = "") ∧
      (∀ ts, env.diag.date_time = some ts →
        (written .stderr (added w (v_do_log_to_file env.diag .stderr ERROR_LOG_LEVEL
          "open_log_file" ln m ⟨g, w.trace ++ R⟩).2)).data
          <+: (spec_line ts "error" "open_log_file" ln env.diag.pid m).data) := by
    intro R g ln m hR
    obtain ⟨b, L, hv, -⟩ := v_do_log_to_file_valid env.diag .stderr ERROR_LOG_LEVEL
      "open_log_file" ln m ⟨g, w.trace ++ R⟩ error_level_valid.1 error_level_valid.2
    have hb := v_do_log_to_file_bytes env.diag .stderr ERROR_LOG_LEVEL "open_log_file" ln m
      ⟨g, w.trace ++ R⟩ error_level_valid.1 error_level_valid.2
    rw [hl, hv] at hb
    rw [hv]
    simp only [added_extend w g g R L, written_append, hR, String.empty_append]
    exact hb
  refine ⟨?_, ?_⟩
  · intro s hs
    obtain ⟨dst, R, D, ho, hD, hcase⟩ := open_log_file_shape env w
    rw [ho]
    simp only [added_append, written_append,
      written_output .stderr s hs D (fun x hx => (hD x hx).2), String.append_empty]
    rcases hcase with ⟨-, -, rfl⟩ | ⟨-, -, -, -, rfl, -⟩ | ⟨-, -, -, rfl⟩ | ⟨-, -, -, -, rfl⟩ <;>
      simp [written_cons, written_nil, Call.bytes_to]
  cases hg : w.opening_log_file with
  | true =>
    have hk := key [] true 57 recursive_msg (written_nil _)
    have hw : (⟨true, w.trace ++ []⟩ : World) = w := by
      rcases w with ⟨g, t⟩
      simp only [List.append_nil] at *
      rw [← hg]
    rw [hw] at hk
    rw [open_log_file_guarded env w hg]
    exact ⟨hk.1, fun _ _ h => absurd h (by decide), fun ts h _ => hk.2 ts h⟩
  | false =>
    by_cases hexp : USR_LOG_FILE = env.expanded_log_file_path
    · have hk := key [⟨true, .expand_env USR_LOG_FILE⟩] false 87 open_error_msg
        (by simp [written_cons, written_nil, Call.bytes_to])
      rw [open_log_file_noop env w hg hexp]
      exact ⟨hk.1, fun ts h _ => hk.2 ts h, fun _ _ h => absurd h (by decide)⟩
    · cases hopen : env.fopen_ok with
      | true =>
        rw [open_log_file_opened env w hg hexp hopen]
        have hnone : written .stderr (added w ⟨false, w.trace ++
            [ ⟨true, .expand_env USR_LOG_FILE⟩,
              ⟨true, .fopen env.expanded_log_file_path "a"⟩ ]⟩) = "" := by
          simp [added_append, written_cons, written_nil, Call.bytes_to]
        rw [hnone]
        exact ⟨fun _ => rfl, fun _ _ _ => List.nil_prefix,
          fun _ _ h => absurd h (by decide)⟩
      | false =>
        have hk := key [ ⟨true, .expand_env USR_LOG_FILE⟩,
          ⟨true, .fopen env.expanded_log_file_path "a"⟩ ] false 87 open_error_msg
          (by simp [written_cons, written_nil, Call.bytes_to])
        rw [open_log_file_open_failed env w hg hexp hopen]
        exact ⟨hk.1, fun ts h _ => hk.2 ts h, fun _ _ h => absurd h (by decide)⟩

/-- When the clock read for the record of the caller fails at a valid level, `do_log`
returns false and adds no write to those of `open_log_file`, which are none when the
file was opened. -/
theorem do_log_clock_fails_writes (env : Env) (w : World) (log_level : Int)
    (func_name : String) (line_num : Int) (msg : String)
    (hlo : DEBUG_LOG_LEVEL ≤ log_level) (hhi : log_level ≤ ERROR_LOG_LEVEL)
    (hclock : env.caller.gettimeofday_ok = false) :
    (do_log env log_level func_name line_num msg w).1 = .ret false ∧
    (∀ s, written s (added w (do_log env log_level func_name line_num msg w).2)
      = written s (added w (open_log_file env w).2)) ∧
    (∀ p, (open_log_file env w).1 = .ret (some (.file p)) →
      ∀ s, written s (added w (do_log env log_level func_name line_num msg w).2) = "") := by
  obtain ⟨dst, R, D, b, C, ho, hd, hb, hC0, -, -, hcase⟩ :=
    do_log_shape env log_level func_name line_num msg w hlo hhi
  have hbf : b = false := by
    cases b
    · rfl
    · have := (hb.1 rfl).1
      rw [hclock] at this
      exact absurd this (by decide)
  have hCnil := hC0 hclock
  subst hbf hCnil
  rw [hd, ho]
  have hK : ∀ s, written s
      (if dst ≠ .stderr ∧ dst ≠ .stdout then [⟨w.opening_log_file, .fclose dst⟩] else [])
        = "" := by
    intro s
    split <;> simp [written_cons, written_nil, Call.bytes_to]
  refine ⟨rfl, ?_, ?_⟩
  · intro s
    simp only [added_append, written_append, hK, written_nil, String.append_empty]
  · intro p hp s
    have hp' : dst = .file p := by simpa using hp
    simp only [added_append, written_append, hK, written_nil, String.append_empty]
    rcases hcase with ⟨-, h, -⟩ | ⟨-, -, -, -, rfl, rfl⟩ | ⟨-, -, h, -⟩ | ⟨-, -, -, h, -⟩
    · rw [h] at hp'; exact absurd hp' (by simp)
    · simp [written_cons, written_nil, Call.bytes_to]
    · rw [h] at hp'; exact absurd hp' (by simp)
    · rw [h] at hp'; exact absurd hp' (by simp)

/-- C7, as amended: for every valid level and every outcome of destination
resolution, if the clock read for the record of the caller fails, `do_log` returns
false and no byte of that record is written: on every stream the bytes written by the
call are those which `open_log_file` wrote; they are none at all when the file was
opened; otherwise no byte goes to a stream other than the fallback stream, and the
bytes on the fallback stream are a leading part of the one error-level line of
`open_log_file` (line 87 when entered with the flag clear, line 57 when entered with
the flag set), and none when `strftime` returns 0 for it. -/
theorem do_log_clock_fails (env : Env) (w : World) (log_level : Int)
    (func_name : String) (line_num : Int) (msg : String)
    (hlo : DEBUG_LOG_LEVEL ≤ log_level) (hhi : log_level ≤ ERROR_LOG_LEVEL)
    (hclock : env.caller.gettimeofday_ok = false) :
    (do_log env log_level func_name line_num msg w).1 = .ret false ∧
    (∀ s, written s (added w (do_log env log_level func_name line_num msg w).2)
      = written s (added w (open_log_file env w).2)) ∧
    (∀ p, (open_log_file env w).1 = .ret (some (.file p)) →
      ∀ s, written s (added w (do_log env log_level func_name line_num msg w).2) = "") ∧
    (∀ s, s ≠ .stderr →
      written s (added w (do_log env log_level func_name line_num msg w).2) = "") ∧
    (env.diag.date_time = none →
      written .stderr (added w (do_log env log_level func_name line_num msg w).2) = "") ∧
    (∀ ts, env.diag.date_time = some ts → w.opening_log_file = false →
      (written .stderr (added w (do_log env log_level func_name line_num msg w).2)).data
        <+: (spec_line ts "error" "open_log_file" 87 env.diag.pid open_error_msg).data) ∧
    (∀ ts, env.diag.date_time = some ts → w.opening_log_file = true →
      (written .stderr (added w (do_log env log_level func_name line_num msg w).2)).data
        <+: (spec_line ts "error" "open_log_file" 57 env.diag.pid recursive_msg).data) := by
  obtain ⟨hret, heq, hfile⟩ :=
    do_log_clock_fails_writes env w log_level func_name line_num msg hlo hhi hclock
  obtain ⟨hother, hnone, hclear, hset⟩ := open_log_file_bytes env w
  refine ⟨hret, heq, hfile, ?_, ?_, ?_, ?_⟩
  · intro s hs
    rw [heq s]
    exact hother s hs
  · intro h
    rw [heq .stderr]
    exact hnone h
  · intro ts h hg
    rw [heq .stderr]
    exact hclear ts h hg
  · intro ts h hg
    rw [heq .stderr]
    exact hset ts h hg

set_option maxRecDepth 100000 in
/-- Witness of C7 as amended: level Info and the clock read for the record of the
caller fails; first with the file opened, then with the expansion a no-op. -/
theorem do_log_clock_fails_witness :
    (DEBUG_LOG_LEVEL ≤ 1 ∧ (1 : Int) ≤ ERROR_LOG_LEVEL) ∧
    env_file_clock_fails.caller.gettimeofday_ok = false ∧
    (do_log env_file_clock_fails 1 "doThing" 42 "value=7" w_clear).1 = .ret false ∧
    written (.file "/home/u/.nvimlog")
      (added w_clear (do_log env_file_clock_fails 1 "doThing" 42 "value=7" w_clear).2)
      = "" ∧
    written .stderr
      (added w_clear (do_log env_file_clock_fails 1 "doThing" 42 "value=7" w_clear).2)
      = "" ∧
    env_noop_clock_fails.caller.gettimeofday_ok = false ∧
    (do_log env_noop_clock_fails 1 "doThing" 42 "value=7" w_clear).1 = .ret false ∧
    written .stdout
      (added w_clear (do_log env_noop_clock_fails 1 "doThing" 42 "value=7" w_clear).2)
      = "" ∧
    (written .stderr
      (added w_clear (do_log env_noop_clock_fails 1 "doThing" 42 "value=7" w_clear).2)).data
      <+: (spec_line "2024/01/02 03:04:04" "error" "open_log_file" 87 1234
        open_error_msg).data :=
  have h := do_log_clock_fails env_file_clock_fails w_clear 1 "doThing" 42 "value=7"
    (by decide) (by decide) rfl
  have k := do_log_clock_fails env_noop_clock_fails w_clear 1 "doThing" 42 "value=7"
    (by decide) (by decide) rfl
  ⟨by decide, rfl, h.1, h.2.2.1 "/home/u/.nvimlog" (by decide) _,
    h.2.2.1 "/home/u/.nvimlog" (by decide) _, rfl, k.1, k.2.2.2.1 .stdout (by decide),
    k.2.2.2.2.2.1 "2024/01/02 03:04:04" rfl rfl⟩

set_option maxRecDepth 100000 in
/-- Counterexample to C7 as stated: the expansion is a no-op and the clock read for
the record of the caller fails; `do_log` returns false, but by then the record of
`open_log_file` has been written to the fallback stream. -/
theorem do_log_clock_fails_after_diagnostic :
    env_noop_clock_fails.caller.gettimeofday_ok = false ∧
    (do_log env_noop_clock_fails 1 "doThing" 42 "value=7" w_clear).1 = .ret false ∧
    written .stderr
        (added w_clear (do_log env_noop_clock_fails 1 "doThing" 42 "value=7" w_clear).2)
      = "2024/01/02 03:04:04 [error @ open_log_file:87] 1234 - Couldn't open USR_LOG_FILE, logging to stderr! This may be caused by attempting to LOG() before initialization functions are called (e.g. init_homedir()).\n" := by
  decide

/-- C9: for every valid level and all answers of the environment, a call of `do_log`
entered with the flag clear returns with the flag clear; among the calls it made, the
flag was set exactly during `expand_env` and `fopen`, and `expand_env` was called. -/
theorem do_log_guard (env : Env) (w : World) (log_level : Int)
    (func_name : String) (line_num : Int) (msg : String)
    (hlo : DEBUG_LOG_LEVEL ≤ log_level) (hhi : log_level ≤ ERROR_LOG_LEVEL)
    (hguard : w.opening_log_file = false) :
    (∃ b, (do_log env log_level func_name line_num msg w).1 = .ret b) ∧
    (do_log env log_level func_name line_num msg w).2.opening_log_file = false ∧
    (∀ x ∈ added w (do_log env log_level func_name line_num msg w).2,
      (x.guard = true ↔ x.call.is_resolution = true)) ∧
    (⟨true, .expand_env USR_LOG_FILE⟩ : Entry)
      ∈ added w (do_log env log_level func_name line_num msg w).2 := by
  obtain ⟨dst, R, D, b, C, -, hd, -, -, hD, hC, hcase⟩ :=
    do_log_shape env log_level func_name line_num msg w hlo hhi
  rw [hd]
  have hR : (∀ x ∈ R, (x.guard = true ↔ x.call.is_resolution = true)) ∧
      (⟨true, .expand_env USR_LOG_FILE⟩ : Entry) ∈ R := by
    rcases hcase with ⟨h, -⟩ | ⟨-, -, -, -, rfl, -⟩ | ⟨-, -, -, rfl⟩ | ⟨-, -, -, -, rfl⟩
    · rw [hguard] at h; exact absurd h (by decide)
    · simp [Call.is_resolution]
    · simp [Call.is_resolution]
    · simp [Call.is_resolution]
  refine ⟨⟨b, rfl⟩, hguard, ?_, ?_⟩
  · intro x hx
    simp only [added_append, List.mem_append] at hx
    rcases hx with ((hx | hx) | hx) | hx
    · exact hR.1 x hx
    · have := hD x hx
      rw [this.1, hguard, output_not_resolution _ _ this.2]
    · have := hC x hx
      rw [this.1, hguard, output_not_resolution _ _ this.2]
    · split at hx
      · simp only [List.mem_singleton] at hx
        subst hx
        simp [hguard, Call.is_resolution]
      · simp at hx
  · simp only [added_append, List.mem_append]
    exact Or.inl (Or.inl (Or.inl hR.2))

/-- Witness of C9: level Info, the file opens. -/
theorem do_log_guard_witness :
    (DEBUG_LOG_LEVEL ≤ 1 ∧ (1 : Int) ≤ ERROR_LOG_LEVEL) ∧
    w_clear.opening_log_file = false ∧
    (do_log env_file 1 "doThing" 42 "value=7" w_clear).2.opening_log_file = false ∧
    (⟨true, .expand_env USR_LOG_FILE⟩ : Entry)
      ∈ added w_clear (do_log env_file 1 "doThing" 42 "value=7" w_clear).2 :=
  have h := do_log_guard env_file w_clear 1 "doThing" 42 "value=7" (by decide) (by decide) rfl
  ⟨by decide, rfl, h.2.1, h.2.2.2⟩

/-- C4, as amended: when `do_log` is entered with the flag set, at each of the
four levels, `open_log_file` returns the fallback stream, no path expansion and no
open is attempted, nothing is closed, and no byte goes to a stream other than the
fallback stream; when for both records the clock read, the timestamp formatting, the
writes and the flush succeed, `do_log` returns true and the fallback stream receives
exactly two lines: an error-level record (label `error`) of `open_log_file`, line 57,
and then the record of the caller. -/
theorem do_log_reentrant (env : Env) (w : World) (log_level : Int)
    (label func_name : String) (line_num : Int) (msg : String)
    (hlevel : (log_level = DEBUG_LOG_LEVEL ∧ label = "debug") ∨
      (log_level = INFO_LOG_LEVEL ∧ label = "info") ∨
      (log_level = WARNING_LOG_LEVEL ∧ label = "warning") ∨
      (log_level = ERROR_LOG_LEVEL ∧ label = "error"))
    (hguard : w.opening_log_file = true) :
    (open_log_file env w).1 = .ret (some .stderr) ∧
    expansions (added w (do_log env log_level func_name line_num msg w).2) = [] ∧
    opens (added w (do_log env log_level func_name line_num msg w).2) = [] ∧
    closed (added w (do_log env log_level func_name line_num msg w).2) = [] ∧
    (∀ s, s ≠ .stderr →
      written s (added w (do_log env log_level func_name line_num msg w).2) = "") ∧
    (∀ ts_diag ts, env.diag.succeeds ts_diag → env.caller.succeeds ts →
      (do_log env log_level func_name line_num msg w).1 = .ret true ∧
      written .stderr (added w (do_log env log_level func_name line_num msg w).2)
        = spec_line ts_diag "error" "open_log_file" 57 env.diag.pid recursive_msg
          ++ spec_line ts label func_name line_num env.caller.pid msg) := by
  obtain ⟨hlab, hlo, hhi⟩ := level_label log_level label hlevel
  refine ⟨by rw [open_log_file_guarded env w hguard], ?_⟩
  have hfirst : expansions (added w (do_log env log_level func_name line_num msg w).2) = [] ∧
      opens (added w (do_log env log_level func_name line_num msg w).2) = [] ∧
      closed (added w (do_log env log_level func_name line_num msg w).2) = [] ∧
      (∀ s, s ≠ .stderr →
        written s (added w (do_log env log_level func_name line_num msg w).2) = "") := by
    obtain ⟨dst, R, D, b, C, -, hd, -, -, hD, hC, hcase⟩ :=
      do_log_shape env log_level func_name line_num msg w hlo hhi
    rw [hd]
    rcases hcase with ⟨-, rfl, rfl⟩ | ⟨h, -⟩ | ⟨h, -⟩ | ⟨h, -⟩
    · have hD' : ∀ x ∈ D, x.call.is_output_to .stderr = true := fun x hx => (hD x hx).2
      have hC' : ∀ x ∈ C, x.call.is_output_to .stderr = true := fun x hx => (hC x hx).2
      simp only [added_append, ne_eq, not_true_eq_false, false_and, if_false,
        List.append_nil, List.nil_append]
      refine ⟨?_, ?_, ?_, ?_⟩
      · rw [expansions_append, expansions_output _ D hD', expansions_output _ C hC']; rfl
      · rw [opens_append, opens_output _ D hD', opens_output _ C hC']; rfl
      · rw [closed_append, closed_output _ D hD', closed_output _ C hC']; rfl
      · intro s hs
        rw [written_append, written_output _ s hs D hD', written_output _ s hs C hC']; rfl
    · rw [hguard] at h; exact absurd h (by decide)
    · rw [hguard] at h; exact absurd h (by decide)
    · rw [hguard] at h; exact absurd h (by decide)
  refine ⟨hfirst.1, hfirst.2.1, hfirst.2.2.1, hfirst.2.2.2, ?_⟩
  intro ts_diag ts hdiag hcaller
  have ho := open_log_file_guarded env w hguard
  rw [diag_ok env.diag 57 recursive_msg ts_diag _ hdiag] at ho
  rw [do_log_stderr_ok env w _ log_level func_name line_num msg ts hlo hhi ho hcaller, hlab]
  refine ⟨rfl, ?_⟩
  simp [added, written_cons, written_nil, Call.bytes_to, spec_line, String.append_assoc]

set_option maxRecDepth 100000 in
/-- Witness of C4 as amended: level Info, the flag set at entry. -/
theorem do_log_reentrant_witness :
    w_guarded.opening_log_file = true ∧
    (open_log_file env_file w_guarded).1 = .ret (some .stderr) ∧
    expansions (added w_guarded (do_log env_file 1 "doThing" 42 "value=7" w_guarded).2) = [] ∧
    opens (added w_guarded (do_log env_file 1 "doThing" 42 "value=7" w_guarded).2) = [] ∧
    closed (added w_guarded (do_log env_file 1 "doThing" 42 "value=7" w_guarded).2) = [] ∧
    (do_log env_file 1 "doThing" 42 "value=7" w_guarded).1 = .ret true ∧
    written .stderr (added w_guarded (do_log env_file 1 "doThing" 42 "value=7" w_guarded).2)
      = "2024/01/02 03:04:04 [error @ open_log_file:57] 1234 - Trying to LOG() recursively! Please fix it.\n2024/01/02 03:04:05 [info @ doThing:42] 1234 - value=7\n" :=
  have h := do_log_reentrant env_file w_guarded 1 "info" "doThing" 42 "value=7"
    (by decide) rfl
  have h2 := h.2.2.2.2.2 "2024/01/02 03:04:04" "2024/01/02 03:04:05"
    ⟨rfl, rfl, rfl, rfl, rfl, rfl⟩ ⟨rfl, rfl, rfl, rfl, rfl, rfl⟩
  ⟨rfl, h.1, h.2.1, h.2.2.1, h.2.2.2.1, h2.1, h2.2⟩

set_option maxRecDepth 100000 in
/-- Counterexample to C4 as stated: entered with the flag set at level Info, with
every step succeeding, `do_log` writes two lines to the fallback stream, and the line
which reports the reentrant call carries the label `error`. -/
theorem do_log_reentrant_two_lines :
    w_guarded.opening_log_file = true ∧
    written .stderr (added w_guarded (do_log env_file 1 "doThing" 42 "value=7" w_guarded).2)
      = "2024/01/02 03:04:04 [error @ open_log_file:57] 1234 - Trying to LOG() recursively! Please fix it.\n2024/01/02 03:04:05 [info @ doThing:42] 1234 - value=7\n" ∧
    (written .stderr
      (added w_guarded (do_log env_file 1 "doThing" 42 "value=7" w_guarded).2)).data.count
        '\n' = 2 := by
  decide

/-! ## Newlines in a line -/

/-- A conditional differs from `x` when both its branches do. -/
theorem ite_ne_char (c : Prop) [Decidable c] (a b x : Char) (ha : a ≠ x) (hb : b ≠ x) :
    (if c then a else b) ≠ x := by
  by_cases h : c
  · rw [if_pos h]; exact ha
  · rw [if_neg h]; exact hb

/-- No digit is a newline. -/
theorem digitChar_ne_newline (n : Nat) : Nat.digitChar n ≠ '\n' := by
  unfold Nat.digitChar
  repeat' apply ite_ne_char
  all_goals decide

/-- The decimal digits of a number hold no newline. -/
theorem toDigitsCore_no_newline (fuel n : Nat) (ds : List Char) (h : '\n' ∉ ds) :
    '\n' ∉ Nat.toDigitsCore 10 fuel n ds := by
  induction fuel generalizing n ds with
  | zero => simpa [Nat.toDigitsCore] using h
  | succ k ih =>
    have hd : '\n' ∉ Nat.digitChar (n % 10) :: ds := by
      simp only [List.mem_cons, not_or]
      exact ⟨fun e => digitChar_ne_newline _ e.symm, h⟩
    simp only [Nat.toDigitsCore]
    split_ifs
    · exact hd
    · exact ih _ _ hd

/-- The decimal rendering of a natural number holds no newline. -/
theorem nat_repr_no_newline (n : Nat) : '\n' ∉ (Nat.repr n).data := by
  simp only [Nat.repr, Nat.toDigits, List.asString]
  exact toDigitsCore_no_newline _ _ _ (by simp)

/-- The decimal rendering of an integer holds no newline. -/
theorem int_toString_no_newline (i : Int) : '\n' ∉ (toString i).data := by
  cases i with
  | ofNat n => exact nat_repr_no_newline n
  | negSucc n =>
    show '\n' ∉ ("-" ++ Nat.repr (n + 1)).data
    simp only [String.data_append, List.mem_append, not_or]
    exact ⟨by decide, nat_repr_no_newline _⟩

/-- The labels of the valid levels hold no newline. -/
theorem log_levels_at_no_newline (log_level : Int)
    (hlo : DEBUG_LOG_LEVEL ≤ log_level) (hhi : log_level ≤ ERROR_LOG_LEVEL) :
    '\n' ∉ (log_levels_at log_level).data := by
  have h0 : (0 : Int) ≤ log_level := hlo
  have h3 : log_level ≤ 3 := hhi
  interval_cases log_level <;> decide

/-- C8, as amended: for every valid level, when the file opens and the clock read,
the timestamp formatting, the three writes and the flush succeed, `do_log` returns
true and the bytes handed to the file end in a newline; when the timestamp, the
function name and the message contain no newline, that newline is the only one. -/
theorem do_log_one_line (env : Env) (w : World) (log_level : Int)
    (func_name : String) (line_num : Int) (msg ts : String)
    (hlo : DEBUG_LOG_LEVEL ≤ log_level) (hhi : log_level ≤ ERROR_LOG_LEVEL)
    (hguard : w.opening_log_file = false)
    (hexp : env.expanded_log_file_path ≠ USR_LOG_FILE) (hopen : env.fopen_ok = true)
    (hcaller : env.caller.succeeds ts) :
    (do_log env log_level func_name line_num msg w).1 = .ret true ∧
    (written (.file env.expanded_log_file_path)
      (added w (do_log env log_level func_name line_num msg w).2)).data.getLast?
        = some '\n' ∧
    ('\n' ∉ ts.data → '\n' ∉ func_name.data → '\n' ∉ msg.data →
      (written (.file env.expanded_log_file_path)
        (added w (do_log env log_level func_name line_num msg w).2)).data.count '\n'
          = 1) := by
  obtain ⟨h1, h2, h3, h4, h5, h6⟩ := hcaller
  rw [do_log_opened_ok env w log_level func_name line_num msg ts hlo hhi hguard hexp
    hopen h1 h2 h3 h4 h5 h6]
  have hw : written (.file env.expanded_log_file_path)
      (added w ⟨false, w.trace ++
      [ ⟨true, .expand_env USR_LOG_FILE⟩,
        ⟨true, .fopen env.expanded_log_file_path "a"⟩,
        ⟨false, .write (.file env.expanded_log_file_path)
          (ts ++ " [" ++ log_levels_at log_level ++ " @ " ++ func_name ++ ":"
            ++ toString line_num ++ "] " ++ toString env.caller.pid ++ " - ")⟩,
        ⟨false, .write (.file env.expanded_log_file_path) msg⟩,
        ⟨false, .write (.file env.expanded_log_file_path) "\n"⟩,
        ⟨false, .fflush (.file env.expanded_log_file_path)⟩,
        ⟨false, .fclose (.file env.expanded_log_file_path)⟩ ]⟩)
      = spec_line ts (log_levels_at log_level) func_name line_num env.caller.pid msg := by
    simp [added_append, written_cons, written_nil, Call.bytes_to, spec_line,
      String.append_assoc]
  rw [hw]
  refine ⟨rfl, ?_, ?_⟩
  · show (_ ++ "\n").data.getLast? = some '\n'
    rw [String.data_append, List.getLast?_append]
    rfl
  · intro hts hfn hmsg
    have hl := log_levels_at_no_newline log_level hlo hhi
    have hi1 := int_toString_no_newline line_num
    have hi2 := int_toString_no_newline env.caller.pid
    simp only [spec_line, String.data_append, List.count_append,
      List.count_eq_zero.2 hts, List.count_eq_zero.2 hfn, List.count_eq_zero.2 hmsg,
      List.count_eq_zero.2 hl, List.count_eq_zero.2 hi1, List.count_eq_zero.2 hi2]
    decide

/-- Witness of C8 as amended: level Info, the file opens. -/
theorem do_log_one_line_witness :
    (DEBUG_LOG_LEVEL ≤ 1 ∧ (1 : Int) ≤ ERROR_LOG_LEVEL) ∧
    (do_log env_file 1 "doThing" 42 "value=7" w_clear).1 = .ret true ∧
    (written (.file "/home/u/.nvimlog")
      (added w_clear (do_log env_file 1 "doThing" 42 "value=7" w_clear).2)).data.getLast?
        = some '\n' ∧
    (written (.file "/home/u/.nvimlog")
      (added w_clear (do_log env_file 1 "doThing" 42 "value=7" w_clear).2)).data.count '\n'
        = 1 :=
  have h := do_log_one_line env_file w_clear 1 "doThing" 42 "value=7" "2024/01/02 03:04:05"
    (by decide) (by decide) rfl (by decide) rfl ⟨rfl, rfl, rfl, rfl, rfl, rfl⟩
  ⟨by decide, h.1, h.2.1, h.2.2 (by decide) (by decide) (by decide)⟩

/-- Counterexample to C8 as stated: at level Info, with the file open and every step
succeeding, the message `a`, newline, `b` makes `do_log` hand two newlines to the
file. -/
theorem do_log_message_with_newline :
    (do_log env_file 1 "doThing" 42 "a\nb" w_clear).1 = .ret true ∧
    written (.file "/home/u/.nvimlog")
        (added w_clear (do_log env_file 1 "doThing" 42 "a\nb" w_clear).2)
      = "2024/01/02 03:04:05 [info @ doThing:42] 1234 - a\nb\n" ∧
    (written (.file "/home/u/.nvimlog")
      (added w_clear (do_log env_file 1 "doThing" 42 "a\nb" w_clear).2)).data.count '\n'
        = 2 := by
  decide

end Log
